import Mathlib

/-!
Shallow embedding of the core data-normalization and metrics logic of
`src/app.py` (a small business-intelligence backend built on pandas).

Modelling conventions:
* A pandas cell is `Option String`: `none` stands for a missing value
  (`np.nan` from `df.replace("", np.nan)`, a JSON `null`, or a key that a
  given row never had).  All downstream operations in the source treat
  these identically (comparisons are false, `value_counts`/`groupby` drop
  them, `pd.to_numeric`/`dateutil` coercion yields a missing result).
* A `Row` is the insertion-ordered dict a row is built from
  (`{"Item Name": ..., col_id: ...}`), as an association list with unique
  keys; a `Table` is the list of rows.  A DataFrame column exists exactly
  when some row carries the key; reading a column that no row carries
  raises `KeyError`, which we model with `Except.error`.
* Python dicts returned by `.to_dict()` are represented as association
  lists keyed in first-occurrence order of the group keys; claims compare
  them as mappings, and every computation here produces this one
  canonical representation.
* Floats are modelled as `ℚ` (all constants of the program — 0.8, 0.5,
  0.2, 0.3, parsed decimals, day counts — are exactly representable, and
  no claim depends on binary rounding).
* Dates are modelled as civil day numbers (`ℤ`); `dateutil.parser.parse`
  is embedded on the ISO `YYYY-MM-DD` subset of its input language (it
  accepts more formats, but every claim depends only on parse failure or
  on ISO dates), with any other string unparseable, mirroring the
  `except: return None` of `safe_parse_date`.
-/

namespace Skylark

/-- One cell of a row: `none` models a missing value (NaN / null / absent key). -/
abbrev Cell := Option String

/-- A row, as the insertion-ordered dict it is built from in
`convert_board_to_dataframe` (unique keys). -/
abbrev Row := List (String × Cell)

/-- A table: the list of rows of the DataFrame. -/
abbrev Table := List Row

/-- Reading a field of a row, as pandas row access does: a key the row does
not carry, or a carried missing value, both read as missing. -/
def getCell (r : Row) (k : String) : Cell :=
  (r.find? (fun p => p.1 == k)).bind (fun p => p.2)

/-- Whether the DataFrame has column `k`: some row carries the key.
`df[k]` on a table without the column raises `KeyError`. -/
def hasCol (t : Table) (k : String) : Bool :=
  t.any (fun r => r.any (fun p => p.1 == k))

/-- Python dict assignment `row[k] = v`: update in place if the key exists,
else append (insertion order preserved). -/
def setField (r : Row) (k : String) (v : Cell) : Row :=
  if r.any (fun p => p.1 == k) then
    r.map (fun p => if p.1 == k then (k, v) else p)
  else
    r ++ [(k, v)]

/-! ### Raw board responses (input of `convert_board_to_dataframe`) -/

/-- One `{id, text}` entry of `column_values`; `text` is `none` when the
JSON value is `null`. -/
structure ColVal where
  id : String
  text : Cell
deriving DecidableEq, Repr

/-- One board item: `name` and its `column_values`. -/
structure Item where
  name : String
  column_values : List ColVal
deriving DecidableEq, Repr

/-- The `items_page` object of a board. -/
structure ItemsPage where
  items : List Item
deriving DecidableEq, Repr

/-- One board of the `boards` array. -/
structure Board where
  items_page : ItemsPage
deriving DecidableEq, Repr

/-- The dict value of the `"data"` field.  `boards = none` models the key
being absent, `boards = some none` the key mapped to JSON `null`, and
`boards = some (some l)` an array.  `extra_keys` counts the other keys of
the dict, which only matters for the dict's Python truthiness. -/
structure DataDict where
  boards : Option (Option (List Board))
  extra_keys : Nat
deriving DecidableEq, Repr

/-- Python truthiness of the `"data"` dict: non-empty. -/
def DataDict.truthy (d : DataDict) : Bool :=
  d.boards.isSome || d.extra_keys != 0

/-- A raw board response.  `data = none` models `"data"` absent or `null`
(both falsy under `raw_data.get("data")`). -/
structure RawResponse where
  data : Option DataDict
deriving DecidableEq, Repr

/-! ### Board Normalizer (`convert_board_to_dataframe`, src/app.py:56-70) -/

/-- The `df.replace("", np.nan)` pass: every cell equal to the empty string
becomes missing, uniformly over all rows and columns. -/
def replace_empty_row (r : Row) : Row :=
  r.map (fun p => (p.1, if p.2 == some "" then none else p.2))

/-- Table-wide empty-string normalization. -/
def replace_empty (t : Table) : Table :=
  t.map replace_empty_row

/-- Row built from one item: `{"Item Name": name}` then `row[id] = text`
for each column value, in order. -/
def row_of_item (it : Item) : Row :=
  it.column_values.foldl (fun r cv => setField r cv.id cv.text)
    [("Item Name", some it.name)]

/-- Rows of the first board, then the empty-string replacement pass. -/
def rows_of_board (b : Board) : Table :=
  replace_empty (b.items_page.items.map row_of_item)

/-- Embedding of `convert_board_to_dataframe` (src/app.py:56-70).  The
guard is `if not raw_data.get("data") or not raw_data["data"]["boards"]`:
an absent/falsy `data` or a null/empty `boards` yields the empty table,
but a truthy `data` dict without a `"boards"` key raises `KeyError`
inside the guard itself, modelled as `Except.error`. -/
def convert_board_to_dataframe (raw : RawResponse) : Except String Table :=
  match raw.data with
  | none => .ok []
  | some d =>
    if d.truthy = false then .ok []
    else
      match d.boards with
      | none => .error "KeyError: 'boards'"
      | some none => .ok []
      | some (some []) => .ok []
      | some (some (b :: _)) => .ok (rows_of_board b)

/-! ### Probability normalizer (`normalize_probability`, src/app.py:75-77) -/

/-- Python `str.strip()`: drop whitespace from both ends (they agree on
ASCII whitespace). -/
def py_strip (s : String) : String :=
  String.mk (((s.data.dropWhile Char.isWhitespace).reverse.dropWhile
    Char.isWhitespace).reverse)

/-- Embedding of `normalize_probability` on strings:
`{"High": 0.8, "Medium": 0.5, "Low": 0.2}.get(str(prob).strip(), 0.3)`. -/
def normalize_probability (prob : String) : ℚ :=
  if py_strip prob = "High" then 8/10
  else if py_strip prob = "Medium" then 5/10
  else if py_strip prob = "Low" then 2/10
  else 3/10

/-- The same function applied to a cell, as `df[...].apply` does: a missing
cell stringifies to `"nan"`/`"None"`, neither of which is a label, so it
takes the 0.3 default. -/
def normalize_probability_cell (c : Cell) : ℚ :=
  match c with
  | some s => normalize_probability s
  | none => 3/10

/-! ### Numeric coercion (`pd.to_numeric(..., errors="coerce")`, src/app.py:92) -/

/-- Value of a digit run. -/
def digitsToNat (cs : List Char) : Nat :=
  cs.foldl (fun n c => 10 * n + (c.toNat - 48)) 0

/-- Embedding of `pd.to_numeric(s, errors="coerce")` on one string, on the
plain decimal subset (optional sign, digits, optional fractional part);
anything else coerces to missing.  The source program only ever feeds it
numeric-as-text board values. -/
def parse_numeric (s : String) : Option ℚ :=
  let step : List Char → Option ℚ := fun cs =>
    let intPart := cs.takeWhile Char.isDigit
    let rest := cs.dropWhile Char.isDigit
    match rest with
    | [] =>
      if intPart.isEmpty then none
      else some ((digitsToNat intPart : ℚ))
    | '.' :: frac =>
      if frac.all Char.isDigit && !(intPart.isEmpty && frac.isEmpty) then
        some ((digitsToNat intPart : ℚ) +
          (digitsToNat frac : ℚ) / ((10 : ℚ) ^ frac.length))
      else none
    | _ => none
  match s.toList with
  | '-' :: cs => (step cs).map (fun q => -q)
  | '+' :: cs => step cs
  | cs => step cs

/-- Numeric coercion of one cell: missing stays missing. -/
def to_numeric_cell (c : Cell) : Option ℚ :=
  c.bind parse_numeric

/-! ### Date parsing (`safe_parse_date`, src/app.py:79-83) -/

/-- Leap-year rule of the Gregorian calendar. -/
def isLeap (y : Nat) : Bool :=
  (y % 4 == 0 && y % 100 != 0) || y % 400 == 0

/-- Days in a month. -/
def daysInMonth (y m : Nat) : Nat :=
  if m == 2 then (if isLeap y then 29 else 28)
  else if m == 4 || m == 6 || m == 9 || m == 11 then 30
  else 31

/-- Civil day number of a Gregorian date (days since 1970-01-01, the
standard days-from-civil computation). -/
def days_from_civil (y m d : Nat) : ℤ :=
  let y' : ℤ := if m ≤ 2 then (y : ℤ) - 1 else (y : ℤ)
  let era : ℤ := (if 0 ≤ y' then y' else y' - 399) / 400
  let yoe : ℤ := y' - era * 400
  let mp : ℤ := if m > 2 then (m : ℤ) - 3 else (m : ℤ) + 9
  let doy : ℤ := (153 * mp + 2) / 5 + (d : ℤ) - 1
  let doe : ℤ := yoe * 365 + yoe / 4 - yoe / 100 + doy
  era * 146097 + doe - 719468

/-- Embedding of `safe_parse_date` (src/app.py:79-83): `dateutil` parsing
restricted to the ISO `YYYY-MM-DD` subset, any failure (including a
missing cell, where `parser.parse` raises `TypeError`) becoming `none`.
The result is the date's civil day number (these dates carry no time of
day, so day differences are exact). -/
def safe_parse_date (c : Cell) : Option ℤ :=
  c.bind (fun s =>
    match s.toList with
    | [y1, y2, y3, y4, '-', m1, m2, '-', d1, d2] =>
      if [y1, y2, y3, y4, m1, m2, d1, d2].all Char.isDigit then
        let y := digitsToNat [y1, y2, y3, y4]
        let m := digitsToNat [m1, m2]
        let d := digitsToNat [d1, d2]
        if 1 ≤ m && m ≤ 12 && 1 ≤ d && d ≤ daysInMonth y m then
          some (days_from_civil y m d)
        else none
      else none
    | _ => none)

/-! ### Aggregation helpers (pandas `groupby` / `value_counts` / `sum`) -/

/-- Keys in the canonical (first-occurrence) order used to represent a
Python dict. -/
def groupKeys (cells : List Cell) : List String :=
  (cells.filterMap id).dedup

/-- Embedding of `df.groupby(key)["value"].sum().to_dict()`: rows with a
missing key are dropped by `groupby`; each group sums its non-missing
values, an all-missing group summing to 0. -/
def group_sum (pairs : List (Cell × Option ℚ)) : List (String × ℚ) :=
  (groupKeys (pairs.map (fun p => p.1))).map (fun k =>
    (k, ((pairs.filter (fun p => p.1 == some k)).filterMap (fun p => p.2)).sum))

/-- Embedding of `series.value_counts().to_dict()`: missing values are
dropped, each present value mapped to its number of occurrences. -/
def value_counts (cells : List Cell) : List (String × Nat) :=
  let present := cells.filterMap id
  present.dedup.map (fun k => (k, present.count k))

/-- Embedding of `df.groupby(key)["delay"].mean().dropna().to_dict()`:
rows with a missing key are dropped; each group takes the mean of its
non-missing delays; a group with none (mean `NaN`) is dropped by
`dropna`. -/
def group_mean_dropna (pairs : List (Cell × Option ℤ)) : List (String × ℚ) :=
  (groupKeys (pairs.map (fun p => p.1))).filterMap (fun k =>
    let ds := (pairs.filter (fun p => p.1 == some k)).filterMap (fun p => p.2)
    if ds.isEmpty then none
    else some (k, (ds.map (fun z => (z : ℚ))).sum / (ds.length : ℚ)))

/-! ### Deal metrics (`compute_deal_metrics`, src/app.py:88-104) -/

/-- The metrics dict of the non-error branch of `compute_deal_metrics`. -/
structure DealMetrics where
  total_pipeline : ℚ
  weighted_pipeline : ℚ
  sector_breakdown : List (String × ℚ)
  stage_distribution : List (String × Nat)
deriving DecidableEq, Repr

/-- Result of `compute_deal_metrics`: either the `{"error": ...}` dict or
the metrics dict. -/
inductive DealResult where
  | err (msg : String)
  | metrics (m : DealMetrics)
deriving DecidableEq, Repr

/-- A row with its derived `value`, `prob` and `weighted` columns
(src/app.py:92-94). -/
structure DRow where
  row : Row
  value : Option ℚ
  prob : ℚ
  weighted : Option ℚ
deriving DecidableEq, Repr

/-- Column derivation of src/app.py:92-94: `value` coerced from the
numeric column, `prob` from the probability label, `weighted` their
product (missing if `value` is missing; `prob` never is). -/
def derive_row (r : Row) : DRow :=
  let v := to_numeric_cell (getCell r "numeric_mm0f6tc2")
  let p := normalize_probability_cell (getCell r "color_mm0f30w0")
  ⟨r, v, p, v.map (fun q => q * p)⟩

/-- The filter of src/app.py:97, `df["color_mm0fqvp6"] == "Open"`: a
missing status compares unequal. -/
def isOpenRow (r : Row) : Bool :=
  getCell r "color_mm0fqvp6" == some "Open"

/-- The aggregation of src/app.py:99-104 over the filtered rows. -/
def deal_aggregates (rows : List DRow) : DealMetrics :=
  { total_pipeline := (rows.filterMap (fun d => d.value)).sum
    weighted_pipeline := (rows.filterMap (fun d => d.weighted)).sum
    sector_breakdown :=
      group_sum (rows.map (fun d => (getCell d.row "color_mm0fe66m", d.value)))
    stage_distribution :=
      value_counts (rows.map (fun d => getCell d.row "color_mm0f24qr")) }

/-- Embedding of `compute_deal_metrics` (src/app.py:88-104).  Empty table
short-circuits to the error dict; accessing a column the table does not
have raises `KeyError` (checks appear in the source's access order);
otherwise the derived columns are computed for all rows, the rows then
filtered to status "Open", then aggregated. -/
def compute_deal_metrics (df : Table) : Except String DealResult :=
  if df.isEmpty then .ok (.err "No deal data available.")
  else if !hasCol df "numeric_mm0f6tc2" then .error "KeyError: 'numeric_mm0f6tc2'"
  else if !hasCol df "color_mm0f30w0" then .error "KeyError: 'color_mm0f30w0'"
  else if !hasCol df "color_mm0fqvp6" then .error "KeyError: 'color_mm0fqvp6'"
  else if !hasCol df "color_mm0fe66m" then .error "KeyError: 'color_mm0fe66m'"
  else if !hasCol df "color_mm0f24qr" then .error "KeyError: 'color_mm0f24qr'"
  else
    .ok (.metrics (deal_aggregates
      ((df.map derive_row).filter (fun d => isOpenRow d.row))))

/-- Variant stated by the spec's refinement note: filter to "Open" rows
first, then derive the columns and aggregate.  Written for comparison
with `compute_deal_metrics`; the `KeyError` guards are unchanged since
pandas filtering keeps the column schema. -/
def compute_deal_metrics_filter_first (df : Table) : Except String DealResult :=
  if df.isEmpty then .ok (.err "No deal data available.")
  else if !hasCol df "numeric_mm0f6tc2" then .error "KeyError: 'numeric_mm0f6tc2'"
  else if !hasCol df "color_mm0f30w0" then .error "KeyError: 'color_mm0f30w0'"
  else if !hasCol df "color_mm0fqvp6" then .error "KeyError: 'color_mm0fqvp6'"
  else if !hasCol df "color_mm0fe66m" then .error "KeyError: 'color_mm0fe66m'"
  else if !hasCol df "color_mm0f24qr" then .error "KeyError: 'color_mm0f24qr'"
  else
    .ok (.metrics (deal_aggregates ((df.filter isOpenRow).map derive_row)))

/-! ### Work-order metrics (`compute_work_order_metrics`, src/app.py:106-118) -/

/-- The metrics dict of the non-error branch of
`compute_work_order_metrics`. -/
structure WorkOrderMetrics where
  average_delay_days : ℚ
  sector_delay : List (String × ℚ)
  execution_status_distribution : List (String × Nat)
deriving DecidableEq, Repr

/-- Result of `compute_work_order_metrics`. -/
inductive WorkOrderResult where
  | err (msg : String)
  | metrics (m : WorkOrderMetrics)
deriving DecidableEq, Repr

/-- Per-row delay in days, `(actual - planned).dt.days`: missing when
either date fails to parse. -/
def delay_days (r : Row) : Option ℤ :=
  (safe_parse_date (getCell r "date_mm0fz6jw")).bind (fun a =>
    (safe_parse_date (getCell r "date_mm0fpdes")).map (fun p => a - p))

/-- Embedding of `compute_work_order_metrics` (src/app.py:106-118).
Empty table short-circuits to the error dict; missing columns raise
`KeyError`.  When a parsed date column contains no datetime at all,
pandas leaves it with `object` dtype and the `.dt.days` access of line
112 raises (an `AttributeError` when both columns are all-`None`, since
the object-dtype subtraction mask-fills `NaN`; a `TypeError` already at
the subtraction when only one is).  Otherwise both columns are
`datetime64` with `NaT` for failures and the metrics are computed. -/
def compute_work_order_metrics (df : Table) : Except String WorkOrderResult :=
  if df.isEmpty then .ok (.err "No work order data available.")
  else if !hasCol df "date_mm0fpdes" then .error "KeyError: 'date_mm0fpdes'"
  else if !hasCol df "date_mm0fz6jw" then .error "KeyError: 'date_mm0fz6jw'"
  else if (df.map (fun r => safe_parse_date (getCell r "date_mm0fpdes"))).all Option.isNone
       && (df.map (fun r => safe_parse_date (getCell r "date_mm0fz6jw"))).all Option.isNone then
    .error "AttributeError: Can only use .dt accessor with datetimelike values"
  else if (df.map (fun r => safe_parse_date (getCell r "date_mm0fpdes"))).all Option.isNone
       || (df.map (fun r => safe_parse_date (getCell r "date_mm0fz6jw"))).all Option.isNone then
    .error "TypeError: unsupported operand type(s) in datetime64 and object subtraction"
  else if !hasCol df "color_mm0f5e45" then .error "KeyError: 'color_mm0f5e45'"
  else if !hasCol df "color_mm0fcx9e" then .error "KeyError: 'color_mm0fcx9e'"
  else
    let valid := (df.map delay_days).filterMap id
    .ok (.metrics
      { average_delay_days :=
          if valid.isEmpty then 0
          else (valid.map (fun z => (z : ℚ))).sum / (valid.length : ℚ)
        sector_delay :=
          group_mean_dropna (df.map (fun r => (getCell r "color_mm0f5e45", delay_days r)))
        execution_status_distribution :=
          value_counts (df.map (fun r => getCell r "color_mm0fcx9e")) })

/-! ### Concrete inputs used by the claims -/

/-- The single board item of the spec's end-to-end example. -/
def acmeItem : Item :=
  ⟨"Acme Deal",
   [⟨"numeric_mm0f6tc2", some "100"⟩, ⟨"color_mm0f30w0", some "High"⟩,
    ⟨"color_mm0fqvp6", some "Open"⟩, ⟨"color_mm0fe66m", some "Defense"⟩,
    ⟨"color_mm0f24qr", some "Negotiation"⟩]⟩

/-- Raw response returning exactly the item `acmeItem` in one board. -/
def acmeRaw : RawResponse := ⟨some ⟨some (some [⟨⟨[acmeItem]⟩⟩]), 0⟩⟩

/-- The normalized table of `acmeRaw`. -/
def acmeTable : Table :=
  [[("Item Name", some "Acme Deal"), ("numeric_mm0f6tc2", some "100"),
    ("color_mm0f30w0", some "High"), ("color_mm0fqvp6", some "Open"),
    ("color_mm0fe66m", some "Defense"), ("color_mm0f24qr", some "Negotiation")]]

/-- A one-row work-order table whose two dates are both unparseable. -/
def woAllBadDates : Table :=
  [[("Item Name", some "W1"), ("date_mm0fpdes", some "???"),
    ("date_mm0fz6jw", some "???"), ("color_mm0f5e45", some "Ops"),
    ("color_mm0fcx9e", some "Done")]]

/-! ### Helper lemmas -/

/-- Column derivation keeps the underlying row unchanged. -/
lemma derive_row_row (r : Row) : (derive_row r).row = r := rfl

/-- Filtering to "Open" after deriving the columns touches the same rows as
filtering first: the key list-algebra fact behind the refinement claim. -/
lemma filter_derive (t : Table) :
    (t.map derive_row).filter (fun d => isOpenRow d.row)
      = (t.filter isOpenRow).map derive_row := by
  rw [List.filter_map derive_row t]
  rfl

/-- Counting the present cells of a list. -/
lemma length_filterMap_id (cells : List Cell) :
    (cells.filterMap id).length = (cells.filter (fun c => c.isSome)).length := by
  induction cells with
  | nil => rfl
  | cons c cs ih => cases c <;> simp [List.filterMap_cons, List.filter_cons, ih]

/-- The counts of `value_counts` sum to the number of present cells. -/
lemma sum_value_counts (cells : List Cell) :
    ((value_counts cells).map Prod.snd).sum
      = (cells.filter (fun c => c.isSome)).length := by
  unfold value_counts
  rw [List.map_map]
  have h : (Prod.snd ∘ fun k => (k, (cells.filterMap id).count k))
      = fun k => (cells.filterMap id).count k := rfl
  rw [h, List.sum_map_count_dedup_eq_length, length_filterMap_id]

/-- `value_counts` over a mapped column: its counts sum to the number of
rows whose cell is present. -/
lemma sum_value_counts_map {α : Type} (rows : List α) (f : α → Cell) :
    ((value_counts (rows.map f)).map Prod.snd).sum
      = (rows.filter (fun r => (f r).isSome)).length := by
  rw [sum_value_counts, List.filter_map f rows, List.length_map]
  rfl

/-- Reading a cell after the empty-string pass: an empty-string cell reads
as missing, everything else unchanged. -/
lemma getCell_replace_empty_row (r : Row) (k : String) :
    getCell (replace_empty_row r) k
      = if getCell r k = some "" then none else getCell r k := by
  induction r with
  | nil => rfl
  | cons p ps ih =>
    obtain ⟨k0, v⟩ := p
    by_cases h : (k0 == k)
    · cases v with
      | none => simp [getCell, replace_empty_row, List.find?_cons, h]
      | some s =>
        by_cases hs : s = "" <;>
          simp [getCell, replace_empty_row, List.find?_cons, h, hs]
    · simpa [getCell, replace_empty_row, List.find?_cons, h] using ih

/-! ### C1: totality and values of the probability normalizer -/

/-- C1: `normalize_probability` is total: after stripping surrounding
whitespace, exactly "High" maps to 0.8, "Medium" to 0.5 and "Low" to 0.2;
every other value — including a missing one and the differently-cased
"high" — maps to the 0.3 default; `" High "` with surrounding whitespace
maps to 0.8; and the result always lies in [0, 1]. -/
theorem c1_normalize_probability_total :
    normalize_probability "High" = 8/10
  ∧ normalize_probability "Medium" = 5/10
  ∧ normalize_probability "Low" = 2/10
  ∧ normalize_probability " High " = 8/10
  ∧ normalize_probability "high" = 3/10
  ∧ normalize_probability_cell none = 3/10
  ∧ (∀ s : String, py_strip s ≠ "High" → py_strip s ≠ "Medium" →
      py_strip s ≠ "Low" → normalize_probability s = 3/10)
  ∧ (∀ s : String, 0 ≤ normalize_probability s ∧ normalize_probability s ≤ 1) := by
  refine ⟨rfl, rfl, rfl, rfl, rfl, rfl, ?_, ?_⟩
  · intro s h1 h2 h3
    unfold normalize_probability
    rw [if_neg h1, if_neg h2, if_neg h3]
  · intro s
    unfold normalize_probability
    split_ifs <;> constructor <;> norm_num

/-- Witness for C1 at the unmapped label "Probable". -/
theorem c1_witness :
    (py_strip "Probable" ≠ "High" ∧ py_strip "Probable" ≠ "Medium"
      ∧ py_strip "Probable" ≠ "Low")
  ∧ normalize_probability "Probable" = 3/10
  ∧ (0 ≤ normalize_probability "??" ∧ normalize_probability "??" ≤ 1) :=
  ⟨⟨by decide, by decide, by decide⟩,
   c1_normalize_probability_total.2.2.2.2.2.2.1 "Probable"
     (by decide) (by decide) (by decide),
   c1_normalize_probability_total.2.2.2.2.2.2.2 "??"⟩

/-! ### C10: only the first board is read -/

/-- C10: `convert_board_to_dataframe` reads items only from the first
element of the `boards` array: with two or more boards the result is
exactly the first board's rows, and equals the result on the one-board
array. -/
theorem c10_first_board_only :
    ∀ (b : Board) (bs : List Board) (extra : Nat),
      convert_board_to_dataframe ⟨some ⟨some (some (b :: bs)), extra⟩⟩
        = .ok (rows_of_board b)
    ∧ convert_board_to_dataframe ⟨some ⟨some (some (b :: bs)), extra⟩⟩
        = convert_board_to_dataframe ⟨some ⟨some (some [b]), extra⟩⟩ :=
  fun _ _ _ => ⟨rfl, rfl⟩

/-! ### C2: defensive behavior of the board normalizer -/

/-- C2 counterexample: a response whose `data` dict is truthy (here: one
other key) but has no `boards` key makes `convert_board_to_dataframe`
raise a `KeyError` instead of returning an empty table. -/
theorem c2_counterexample :
    convert_board_to_dataframe ⟨some ⟨none, 1⟩⟩ = .error "KeyError: 'boards'" := rfl

/-- C2 amended: if `data` is absent (or falsy), or the `boards` field is
present but null or empty, the result is the empty table without raising;
only a truthy `data` dict lacking the `boards` key raises. -/
theorem c2_amended_empty_table :
    ∀ raw : RawResponse,
      (raw.data = none
        ∨ ∃ d, raw.data = some d
            ∧ (d.truthy = false ∨ d.boards = some none ∨ d.boards = some (some []))) →
      convert_board_to_dataframe raw = .ok [] := by
  intro raw h
  obtain ⟨dta⟩ := raw
  rcases h with h | ⟨d, hd, hcase⟩
  · simp only [RawResponse.mk.injEq] at h
    subst h; rfl
  · simp only [RawResponse.mk.injEq] at hd
    subst hd
    by_cases ht : d.truthy = false
    · simp [convert_board_to_dataframe, ht]
    · rcases hcase with hc | hc | hc
      · exact absurd hc ht
      · simp [convert_board_to_dataframe, ht, hc]
      · simp [convert_board_to_dataframe, ht, hc]

/-- Witness for the amended C2: the response with no `data` field. -/
theorem c2_witness :
    convert_board_to_dataframe ⟨none⟩ = .ok [] :=
  c2_amended_empty_table ⟨none⟩ (Or.inl rfl)

/-! ### C4: all-unparseable work-order dates -/

/-- C4: on the one-row work-order table whose planned and actual dates are
both unparseable, the code raises (both parsed columns are entirely
`None`, so the subtraction result has `object` dtype and the `.dt`
accessor of src/app.py:112 fails) instead of returning
`average_delay_days = 0` with an empty `sector_delay`. -/
theorem c4_all_unparseable_raises :
    compute_work_order_metrics woAllBadDates
      = .error "AttributeError: Can only use .dt accessor with datetimelike values" := rfl

/-! ### C8: end-to-end example -/

/-- C8: the board response with the single "Acme Deal" item normalizes to
`acmeTable`, and `compute_deal_metrics` on it yields total 100.0,
weighted 80.0, sector breakdown {"Defense": 100.0} and stage
distribution {"Negotiation": 1}. -/
theorem c8_acme_end_to_end :
    convert_board_to_dataframe acmeRaw = .ok acmeTable
  ∧ compute_deal_metrics acmeTable
      = .ok (.metrics ⟨100, 80, [("Defense", 100)], [("Negotiation", 1)]⟩) := by
  constructor
  · simp [convert_board_to_dataframe, acmeRaw, rows_of_board, row_of_item,
      replace_empty, replace_empty_row, setField, acmeItem, acmeTable,
      DataDict.truthy]
  · simp [compute_deal_metrics, acmeTable, hasCol, deal_aggregates, derive_row,
      isOpenRow, getCell, to_numeric_cell, parse_numeric, digitsToNat,
      normalize_probability_cell, normalize_probability, py_strip, group_sum,
      groupKeys, value_counts, List.dedup, List.count]
    norm_num

/-! ### C7: the empty-string normalization pass -/

/-- C7: the empty-string pass is uniform over all rows and columns — after
it, a field reads as missing exactly when it read as the empty string,
and reads unchanged otherwise; in particular a row built with column id
"x" set to `""` has field "x" absent after normalization, while one with
"x" set to `"5"` still reads `"5"`. -/
theorem c7_replace_empty_uniform :
    (∀ (t : Table) (i : Nat) (k : String),
        ((replace_empty t)[i]?).map (fun r => getCell r k)
          = (t[i]?).map (fun r => if getCell r k = some "" then none else getCell r k))
  ∧ getCell (replace_empty_row (row_of_item ⟨"R", [⟨"x", some ""⟩]⟩)) "x" = none
  ∧ getCell (replace_empty_row (row_of_item ⟨"R", [⟨"x", some "5"⟩]⟩)) "x" = some "5" := by
  refine ⟨?_, rfl, rfl⟩
  intro t i k
  unfold replace_empty
  rw [List.getElem?_map]
  cases t[i]? with
  | none => rfl
  | some r => simp [getCell_replace_empty_row]

/-! ### C3: the empty table, and only it, yields the error objects -/

/-- C3: exactly the empty table makes `compute_deal_metrics` return the
error object "No deal data available." and `compute_work_order_metrics`
the error object "No work order data available."; on the empty table
neither raises. -/
theorem c3_empty_table_error :
    ∀ t : Table,
      (compute_deal_metrics t = .ok (.err "No deal data available.") ↔ t = [])
    ∧ (compute_work_order_metrics t = .ok (.err "No work order data available.") ↔ t = []) := by
  intro t
  cases t with
  | nil => exact ⟨by simp [compute_deal_metrics], by simp [compute_work_order_metrics]⟩
  | cons r rs =>
    constructor
    · constructor
      · intro h
        exfalso
        unfold compute_deal_metrics at h
        split_ifs at h <;> simp_all
      · intro h; cases h
    · constructor
      · intro h
        exfalso
        unfold compute_work_order_metrics at h
        split_ifs at h <;> simp_all
      · intro h; cases h

/-! ### C5: a table filtered to no "Open" rows gives zero metrics -/

/-- C5: on a non-empty deal table (carrying the five deal columns) in which
no row has status exactly "Open", `compute_deal_metrics` returns
total 0.0, weighted 0.0 and empty sector/stage mappings — not the error
object. -/
theorem c5_no_open_rows_zero_metrics :
    ∀ t : Table, t ≠ [] →
      hasCol t "numeric_mm0f6tc2" = true →
      hasCol t "color_mm0f30w0" = true →
      hasCol t "color_mm0fqvp6" = true →
      hasCol t "color_mm0fe66m" = true →
      hasCol t "color_mm0f24qr" = true →
      (∀ r ∈ t, isOpenRow r = false) →
      compute_deal_metrics t = .ok (.metrics ⟨0, 0, [], []⟩) := by
  intro t hne h1 h2 h3 h4 h5 hopen
  have hemp : t.isEmpty = false := by
    cases t with
    | nil => exact absurd rfl hne
    | cons a l => rfl
  have hfil : t.filter isOpenRow = [] := by
    rw [List.filter_eq_nil_iff]
    intro a ha
    simp [hopen a ha]
  unfold compute_deal_metrics
  rw [filter_derive, hfil]
  simp [hemp, h1, h2, h3, h4, h5, deal_aggregates, group_sum, groupKeys,
    value_counts]

/-- A one-row deal table whose only row is "Closed". -/
def closedDealT : Table :=
  [[("Item Name", some "D1"), ("numeric_mm0f6tc2", some "50"),
    ("color_mm0f30w0", some "Low"), ("color_mm0fqvp6", some "Closed"),
    ("color_mm0fe66m", some "Defense"), ("color_mm0f24qr", some "Won")]]

/-- Witness for C5 on the all-"Closed" one-row table. -/
theorem c5_witness :
    (closedDealT ≠ [] ∧ ∀ r ∈ closedDealT, isOpenRow r = false)
  ∧ compute_deal_metrics closedDealT = .ok (.metrics ⟨0, 0, [], []⟩) :=
  ⟨⟨by decide, by decide⟩,
   c5_no_open_rows_zero_metrics closedDealT (by decide) rfl rfl rfl rfl rfl
     (by decide)⟩

/-! ### C6: filter-timing refinement -/

/-- C6: on every non-empty deal table, deriving the value/prob/weighted
columns for all rows and then filtering to "Open" returns the same
result as filtering to "Open" first and then deriving and aggregating. -/
theorem c6_filter_timing_refinement :
    ∀ t : Table, t ≠ [] →
      compute_deal_metrics t = compute_deal_metrics_filter_first t := by
  intro t _
  unfold compute_deal_metrics compute_deal_metrics_filter_first
  rw [filter_derive]

/-- Witness for C6 on the Acme example table. -/
theorem c6_witness :
    acmeTable ≠ []
  ∧ compute_deal_metrics acmeTable = compute_deal_metrics_filter_first acmeTable :=
  ⟨by decide, c6_filter_timing_refinement acmeTable (by decide)⟩

/-! ### C9: distributions count only rows with a present label -/

/-- C9: the stage distribution of `compute_deal_metrics` and the
execution-status distribution of `compute_work_order_metrics` count only
rows whose label cell is present: their counts sum to the number of
labelled rows considered (Open rows for stages, all rows for execution
status), which can be fewer than the rows considered. -/
theorem c9_distributions_drop_missing_labels :
    (∀ (t : Table) (m : DealMetrics),
        compute_deal_metrics t = .ok (.metrics m) →
        (m.stage_distribution.map Prod.snd).sum
            = ((t.filter isOpenRow).filter
                (fun r => (getCell r "color_mm0f24qr").isSome)).length
        ∧ (m.stage_distribution.map Prod.snd).sum ≤ (t.filter isOpenRow).length)
  ∧ (∀ (t : Table) (w : WorkOrderMetrics),
        compute_work_order_metrics t = .ok (.metrics w) →
        (w.execution_status_distribution.map Prod.snd).sum
            = (t.filter (fun r => (getCell r "color_mm0fcx9e").isSome)).length
        ∧ (w.execution_status_distribution.map Prod.snd).sum ≤ t.length) := by
  constructor
  · intro t m h
    unfold compute_deal_metrics at h
    split_ifs at h
    · exact DealResult.noConfusion (Except.ok.inj h)
    have hm := DealResult.metrics.inj (Except.ok.inj h)
    subst hm
    have hsum : ((deal_aggregates
          ((t.map derive_row).filter (fun d => isOpenRow d.row))).stage_distribution.map
            Prod.snd).sum
        = ((t.filter isOpenRow).filter
            (fun r => (getCell r "color_mm0f24qr").isSome)).length := by
      show ((value_counts (((t.map derive_row).filter
          (fun d => isOpenRow d.row)).map
            (fun d => getCell d.row "color_mm0f24qr"))).map Prod.snd).sum = _
      rw [filter_derive, List.map_map]
      exact sum_value_counts_map (t.filter isOpenRow)
        ((fun d => getCell d.row "color_mm0f24qr") ∘ derive_row)
    exact ⟨hsum, hsum ▸ List.length_filter_le _ _⟩
  · intro t w h
    unfold compute_work_order_metrics at h
    split_ifs at h
    · exact WorkOrderResult.noConfusion (Except.ok.inj h)
    have hw := WorkOrderResult.metrics.inj (Except.ok.inj h)
    subst hw
    have hsum : ((value_counts
          (t.map (fun r => getCell r "color_mm0fcx9e"))).map Prod.snd).sum
        = (t.filter (fun r => (getCell r "color_mm0fcx9e").isSome)).length :=
      sum_value_counts_map t (fun r => getCell r "color_mm0fcx9e")
    exact ⟨hsum, hsum ▸ List.length_filter_le _ _⟩

/-- Deal table for the C9 witness: two Open rows, one of them without a
stage label, and one Closed row. -/
def stageGapT : Table :=
  [[("numeric_mm0f6tc2", some "10"), ("color_mm0f30w0", some "High"),
    ("color_mm0fqvp6", some "Open"), ("color_mm0fe66m", some "A"),
    ("color_mm0f24qr", some "S1")],
   [("numeric_mm0f6tc2", none), ("color_mm0f30w0", none),
    ("color_mm0fqvp6", some "Open"), ("color_mm0fe66m", some "A")],
   [("color_mm0fqvp6", some "Closed")]]

/-- Metrics of `stageGapT`. -/
def stageGapM : DealMetrics := ⟨10, 8, [("A", 10)], [("S1", 1)]⟩

/-- Work-order table for the C9 witness: one fully dated row, one row with
unparseable dates and no status label. -/
def statusGapT : Table :=
  [[("date_mm0fpdes", some "2024-01-10"), ("date_mm0fz6jw", some "2024-01-20"),
    ("color_mm0f5e45", some "Ops"), ("color_mm0fcx9e", some "Done")],
   [("date_mm0fpdes", some "???"), ("date_mm0fz6jw", some "???"),
    ("color_mm0f5e45", none)]]

/-- Metrics of `statusGapT`. -/
def statusGapM : WorkOrderMetrics := ⟨10, [("Ops", 10)], [("Done", 1)]⟩

/-- Witness for C9 on `stageGapT` and `statusGapT`. -/
theorem c9_witness :
    ((stageGapM.stage_distribution.map Prod.snd).sum
        = ((stageGapT.filter isOpenRow).filter
            (fun r => (getCell r "color_mm0f24qr").isSome)).length
      ∧ (stageGapM.stage_distribution.map Prod.snd).sum
          ≤ (stageGapT.filter isOpenRow).length)
  ∧ ((statusGapM.execution_status_distribution.map Prod.snd).sum
        = (statusGapT.filter (fun r => (getCell r "color_mm0fcx9e").isSome)).length
      ∧ (statusGapM.execution_status_distribution.map Prod.snd).sum
          ≤ statusGapT.length) :=
  ⟨c9_distributions_drop_missing_labels.1 stageGapT stageGapM (by
      simp [compute_deal_metrics, stageGapT, stageGapM, hasCol, deal_aggregates,
        derive_row, isOpenRow, getCell, to_numeric_cell, parse_numeric,
        digitsToNat, normalize_probability_cell, normalize_probability,
        py_strip, group_sum, groupKeys, value_counts, List.dedup, List.count]
      norm_num),
   c9_distributions_drop_missing_labels.2 statusGapT statusGapM (by
      simp [compute_work_order_metrics, statusGapT, statusGapM, hasCol,
        getCell, safe_parse_date, days_from_civil, daysInMonth, isLeap,
        digitsToNat, delay_days, group_mean_dropna, groupKeys, value_counts,
        List.dedup, List.count])⟩

end Skylark
